import Mathlib

/-!
Shallow embedding of the `td` task-manager TUI core
(`src/td-tui/src/ui/mod.rs`, `src/td-tui/src/main.rs`).

Machine integers: `usize` values are modelled as `Nat`; the one place where
overflow matters (`task_indices.len() - 1` on an empty list) is modelled
explicitly with wrap-around, see `usizeSubOne`.

Collaborators that are part of the repository but outside the visible
sources (`td_lib`'s database, the `modal::text_input` and `tab_layout`
modules) are modelled from the spec; each such definition carries a doc
comment saying so.
-/

namespace Td

/-- A task record: `title` and `time_created` (`SystemTime` modelled as a
`Nat` timestamp). From `td_lib::database::Task` as used in
`src/td-tui/src/ui/mod.rs` lines 192-195. -/
structure Task where
  title : String
  time_created : Nat
deriving DecidableEq, Repr

/-- Modelled from the spec: `td_lib::database::Database` is not under `src/`.
Its `tasks` collection is a graph with stable node handles used here as a
flat collection only; `node_weights()` / `node_indices()` iterate in node
order, `add_node` appends a node, `remove_node` removes one node. We model
the collection as the list of tasks in node order. -/
structure Database where
  tasks : List Task
deriving DecidableEq, Repr

/-- The key codes the visible sources match on; `other` stands for every
remaining `crossterm` key code (Tab, function keys, Delete, ...). -/
inductive KeyCode where
  | Char (c : Char)
  | Enter
  | Up
  | Down
  | Esc
  | Backspace
  | other (n : Nat)
deriving DecidableEq, Repr

/-- `crossterm` key modifiers, as queried by the sources
(`is_empty`, `contains(KeyModifiers::CONTROL)`). -/
structure KeyModifiers where
  control : Bool
  shift : Bool
  alt : Bool
deriving DecidableEq, Repr

def KeyModifiers.isEmpty (m : KeyModifiers) : Bool :=
  !m.control && !m.shift && !m.alt

def KeyModifiers.none : KeyModifiers := ⟨false, false, false⟩

structure KeyEvent where
  code : KeyCode
  modifiers : KeyModifiers
deriving DecidableEq, Repr

/-- Modelled from the spec: the `modal::text_input` module is not under
`src/`. Per spec §4.2 the modal holds open/closed state and a text buffer;
`text = some buf` iff open. -/
structure TextInputModal where
  prompt : String
  text : Option String
deriving DecidableEq, Repr

def TextInputModal.new (prompt : String) : TextInputModal :=
  ⟨prompt, Option.none⟩

def TextInputModal.is_open (m : TextInputModal) : Bool :=
  m.text.isSome

/-- Modelled from the spec (§4.2): `Closed --open()--> Open` clears and
initializes the text buffer. (`open` is a Lean keyword, hence `openModal`.) -/
def TextInputModal.openModal (m : TextInputModal) : TextInputModal :=
  { m with text := some "" }

/-- Modelled from the spec (§4.2): `close()` transitions to `Closed` and
returns the buffer content in one operation. -/
def TextInputModal.close (m : TextInputModal) : Option String × TextInputModal :=
  (m.text, { m with text := Option.none })

/-- Modelled from the spec (§4.2): while open, printable characters append
to the buffer (handled), Backspace removes the last character (handled),
Escape closes without returning content (handled); Enter is left to the
caller — `BasicTaskList::update`'s own `is_open` branch (src lines 187-205)
handles Enter after the modal declines it, so the modal reports Enter (and
the remaining keys) unhandled; while closed, nothing is handled. The modal
never touches the task store. -/
def TextInputModal.update (m : TextInputModal) (key : KeyEvent) : Bool × TextInputModal :=
  match m.text with
  | Option.none => (false, m)
  | some buf =>
    match key.code with
    | KeyCode.Char c => (true, { m with text := some (buf.push c) })
    | KeyCode.Backspace => (true, { m with text := some (buf.dropRight 1) })
    | KeyCode.Esc => (true, { m with text := Option.none })
    | _ => (false, m)

/-- `tasks.sort_by(|a, b| a.time_created.cmp(&b.time_created))`: Rust's
`sort_by` is a stable sort, embedded as a stable insertion sort. A task is
inserted before the first element whose timestamp is not strictly smaller,
so elements with equal timestamps keep their original relative order. -/
def insertByTime (t : Task) : List Task → List Task
  | [] => [t]
  | u :: us =>
    if u.time_created < t.time_created then u :: insertByTime t us
    else t :: u :: us

def sortByTime : List Task → List Task
  | [] => []
  | t :: ts => insertByTime t (sortByTime ts)

/-- The list state of a `BasicTaskList` component (src lines 114-128). -/
structure BasicTaskList where
  index : Nat
  task_popup : TextInputModal
  reverse : Bool
deriving DecidableEq, Repr

def BasicTaskList.new (reverse : Bool) : BasicTaskList :=
  ⟨0, TextInputModal.new "Enter new task", reverse⟩

/-- The row order of the rendered list (src lines 131-137): snapshot the
tasks in node order, sort by `time_created` ascending, reverse if the
component is the reversed variant. -/
def BasicTaskList.renderOrder (self : BasicTaskList) (db : Database) : List Task :=
  let sorted := sortByTime db.tasks
  if self.reverse then sorted.reverse else sorted

/-- The highlighted row of the rendered list (src lines 164-169):
`None` when the task list is empty, `Some index` otherwise. -/
def BasicTaskList.renderSelected (self : BasicTaskList) (db : Database) : Option Nat :=
  if (sortByTime db.tasks).isEmpty then Option.none else some self.index

def USIZE_MAX : Nat := 2 ^ 64 - 1

/-- Rust `usize` subtraction `n - 1` as compiled in the release profile:
wraps around to `USIZE_MAX` when `n = 0`. (The same expression panics with
an overflow check in the debug profile; this is the only subtraction in the
sources that can underflow — the others are guarded.) -/
def usizeSubOne (n : Nat) : Nat :=
  if n = 0 then USIZE_MAX else n - 1

/-- The outcome of one `BasicTaskList::update` call: the returned `handled`
flag, the new component state, the new database, and the snapshots written
to disk (in order) before the call returned. -/
structure UpdateOut where
  handled : Bool
  comp : BasicTaskList
  db : Database
  writes : List Database
deriving DecidableEq, Repr

/-- `BasicTaskList::update` (src lines 176-236), with `SystemTime::now()`
passed in as `now` and each `DatabaseInfo::write` recorded in `writes`.

Control flow mirrors the source: delegate to the popup and return handled
if it handled the key; collect `task_indices` and clamp `index` when the
list is non-empty; if the popup is open, Enter closes it and, when it
yields text, appends a new task and writes the store (all other keys fall
through unhandled); otherwise interpret `c` (open popup), `d` (remove the
node at position `index` in node order, write the store), Up and Down, and
report every other key unhandled. -/
def BasicTaskList.update (self : BasicTaskList) (key : KeyEvent) (db : Database)
    (now : Nat) : UpdateOut :=
  let popupRes := self.task_popup.update key
  if popupRes.fst then
    ⟨true, { self with task_popup := popupRes.snd }, db, []⟩
  else
    let self1 : BasicTaskList := { self with task_popup := popupRes.snd }
    let len := db.tasks.length
    let self2 : BasicTaskList :=
      if len ≠ 0 then { self1 with index := min self1.index (len - 1) } else self1
    if self2.task_popup.is_open then
      match key.code with
      | KeyCode.Enter =>
        let closeRes := self2.task_popup.close
        let self3 : BasicTaskList := { self2 with task_popup := closeRes.snd }
        match closeRes.fst with
        | some text =>
          let db1 : Database := ⟨db.tasks ++ [⟨text, now⟩]⟩
          ⟨true, self3, db1, [db1]⟩
        | Option.none => ⟨true, self3, db, []⟩
      | _ => ⟨false, self2, db, []⟩
    else
      if key.code = KeyCode.Char 'c' ∧ key.modifiers.isEmpty then
        ⟨true, { self2 with task_popup := self2.task_popup.openModal }, db, []⟩
      else if key.code = KeyCode.Char 'd' ∧ key.modifiers.isEmpty ∧ len ≠ 0 then
        let db1 : Database := ⟨db.tasks.eraseIdx self2.index⟩
        ⟨true, self2, db1, [db1]⟩
      else if key.code = KeyCode.Up then
        let idx := if self2.index ≠ 0 then self2.index - 1 else self2.index
        ⟨true, { self2 with index := idx }, db, []⟩
      else if key.code = KeyCode.Down then
        let idx := if self2.index ≠ usizeSubOne len then self2.index + 1 else self2.index
        ⟨true, { self2 with index := idx }, db, []⟩
      else
        ⟨false, self2, db, []⟩

/-- What one iteration of `AppState::run_loop` (src lines 48-66) decides
after the component tree's `update` returned: whether the loop terminates. -/
inductive LoopAction where
  | exitLoop
  | keepRunning
deriving DecidableEq, Repr

/-- The process-level fallback key bindings of `run_loop` (src lines 54-63):
`q`/Esc break, `c` with CONTROL breaks, `s` is a no-op placeholder
(`// todo: save`), everything else is ignored. -/
def run_loop_fallback (key : KeyEvent) : LoopAction :=
  if key.code = KeyCode.Char 'q' ∨ key.code = KeyCode.Esc then LoopAction.exitLoop
  else if key.code = KeyCode.Char 'c' ∧ key.modifiers.control then LoopAction.exitLoop
  else if key.code = KeyCode.Char 's' then LoopAction.keepRunning
  else LoopAction.keepRunning

/-- One `run_loop` iteration after reading a key: the fallback bindings are
consulted only when the component tree reported the key unhandled. -/
def run_loop_step (key : KeyEvent) (handled : Bool) : LoopAction :=
  if handled then LoopAction.keepRunning else run_loop_fallback key

/-- Modelled from the spec: the on-disk format is owned by `td_lib`
(outside `src/`). A file either parses to a task list or is corrupt. -/
inductive FileContent where
  | valid (tasks : List Task)
  | corrupt
deriving DecidableEq, Repr

/-- `AppState::create` (src lines 26-40), with the filesystem abstracted to
the content found at the given path (`Option.none` = file absent).
`DatabaseInfo::read`, `write` and the `TryInto<Database>` conversion are
modelled from the spec: `read` fails on a corrupt file, `write` succeeds,
`DatabaseInfo::default()` is the empty store. Returns the loaded database
and the resulting file content, or an error. -/
def AppState.create (fileAt : Option FileContent) :
    Except Unit (Database × FileContent) :=
  match fileAt with
  | Option.none => Except.ok (⟨[]⟩, FileContent.valid [])
  | some (FileContent.valid ts) => Except.ok (⟨ts⟩, FileContent.valid ts)
  | some FileContent.corrupt => Except.error ()

/-- `main` (src/td-tui/src/main.rs lines 33-43): the interface (`run_app`)
is entered iff `AppState::create` succeeded; on error a message is printed
and the process returns. -/
def main_enters_interface (fileAt : Option FileContent) : Bool :=
  (AppState.create fileAt).toOption.isSome

/-! Concrete fixtures used by the counterexamples and witnesses below. -/

def popupClosed : TextInputModal := TextInputModal.new "Enter new task"

def popupOpenWith (buf : String) : TextInputModal := ⟨"Enter new task", some buf⟩

def taskA : Task := ⟨"A", 0⟩

def taskB : Task := ⟨"B", 1⟩

def taskC : Task := ⟨"C", 2⟩

def keyD : KeyEvent := ⟨KeyCode.Char 'd', KeyModifiers.none⟩

def keyC : KeyEvent := ⟨KeyCode.Char 'c', KeyModifiers.none⟩

def keyQ : KeyEvent := ⟨KeyCode.Char 'q', KeyModifiers.none⟩

def keyX : KeyEvent := ⟨KeyCode.Char 'x', KeyModifiers.none⟩

def keyUp : KeyEvent := ⟨KeyCode.Up, KeyModifiers.none⟩

def keyDown : KeyEvent := ⟨KeyCode.Down, KeyModifiers.none⟩

def keyEnter : KeyEvent := ⟨KeyCode.Enter, KeyModifiers.none⟩

/-! Helper lemmas. -/

/-- A key the popup reports unhandled leaves the popup unchanged. -/
theorem TextInputModal.update_unhandled_eq {m : TextInputModal} {key : KeyEvent}
    (h : (m.update key).fst = false) : (m.update key).snd = m := by
  obtain ⟨p, txt⟩ := m
  obtain ⟨code, mods⟩ := key
  cases txt <;> cases code <;> simp_all [TextInputModal.update]

/-! Claim theorems. -/

/-- C1: pressing `d` is claimed to remove exactly the task displayed at row
`index` of the rendered, sorted (and possibly reversed) view. The code
instead removes the node at position `index` of the unsorted node order
(src line 213). Evaluation at a concrete input: reversed view over tasks
A (time 0), B (time 1); the displayed row 0 is B, yet `d` removes A and
keeps B (the store is still written before returning). -/
theorem C1_delete_ignores_sorted_view :
    (BasicTaskList.renderOrder ⟨0, popupClosed, true⟩ ⟨[taskA, taskB]⟩).head? = some taskB ∧
    (BasicTaskList.update ⟨0, popupClosed, true⟩ keyD ⟨[taskA, taskB]⟩ 99).handled = true ∧
    (BasicTaskList.update ⟨0, popupClosed, true⟩ keyD ⟨[taskA, taskB]⟩ 99).db.tasks = [taskB] ∧
    (BasicTaskList.update ⟨0, popupClosed, true⟩ keyD ⟨[taskA, taskB]⟩ 99).writes =
      [⟨[taskB]⟩] := by
  decide

/-- C2 counterexample: starting from a fresh list over the two-task store
[A, B], pressing Down (selection moves to 1, the last row) and then `d`
(the last row is removed) leaves `SelectionIndex = 1` while the count is 1,
so at the moment `update` returns the index is not within `[0, count-1]`:
the code never re-clamps after the removal. -/
theorem C2_counterexample :
    (BasicTaskList.update
        (BasicTaskList.update (BasicTaskList.new false) keyDown ⟨[taskA, taskB]⟩ 0).comp
        keyD
        (BasicTaskList.update (BasicTaskList.new false) keyDown ⟨[taskA, taskB]⟩ 0).db
        0).db.tasks.length = 1 ∧
    (BasicTaskList.update
        (BasicTaskList.update (BasicTaskList.new false) keyDown ⟨[taskA, taskB]⟩ 0).comp
        keyD
        (BasicTaskList.update (BasicTaskList.new false) keyDown ⟨[taskA, taskB]⟩ 0).db
        0).comp.index = 1 := by
  decide

/-- C2 (amended): when the modal does not handle the key and the store is
non-empty at entry, `update` clamps the index before interpreting the key,
so at return `SelectionIndex ≤ entry count - 1` (after deleting the last
displayed row it may equal the new count until the next `update` clamps
it); and an empty store is rendered with no row highlighted. -/
theorem C2_selection_clamp_amended (comp : BasicTaskList) (key : KeyEvent)
    (db : Database) (now : Nat)
    (hpop : (comp.task_popup.update key).fst = false)
    (hne : db.tasks.length ≠ 0) :
    (comp.update key db now).comp.index ≤ db.tasks.length - 1 ∧
    (comp.update key db now).comp.renderSelected ⟨[]⟩ = Option.none := by
  have hsub : usizeSubOne db.tasks.length = db.tasks.length - 1 := by
    unfold usizeSubOne
    rw [if_neg hne]
  constructor
  · have hmin : min comp.index (db.tasks.length - 1) ≤ db.tasks.length - 1 :=
      Nat.min_le_right _ _
    simp only [BasicTaskList.update, hpop, Bool.false_eq_true, if_false, hne, ne_eq,
      not_false_eq_true, if_true, hsub]
    repeat' split
    all_goals simp only []
    all_goals omega
  · simp [BasicTaskList.renderSelected, sortByTime]

/-- C3 counterexample: the modal is open (buffer "x") and its own update
declines the Up key, yet `BasicTaskList::update` returns unhandled
(src line 204 `_ => false`), not handled as claimed. -/
theorem C3_counterexample :
    TextInputModal.is_open (popupOpenWith "x") = true ∧
    (TextInputModal.update (popupOpenWith "x") keyUp).fst = false ∧
    (BasicTaskList.update ⟨0, popupOpenWith "x", false⟩ keyUp ⟨[taskA]⟩ 0).handled = false := by
  decide

/-- C3 (amended): while the modal is open, a key that the modal's own
update declined is consumed by `BasicTaskList::update` exactly when it is
Enter; every other such key returns unhandled and falls through to
ancestors. -/
theorem C3_modal_open_consumes_only_enter (comp : BasicTaskList) (key : KeyEvent)
    (db : Database) (now : Nat)
    (hopen : comp.task_popup.is_open = true)
    (hpop : (comp.task_popup.update key).fst = false) :
    (comp.update key db now).handled = true ↔ key.code = KeyCode.Enter := by
  obtain ⟨idx, ⟨pr, txt⟩, rev⟩ := comp
  obtain ⟨code, mods⟩ := key
  cases txt with
  | none => simp [TextInputModal.is_open] at hopen
  | some buf =>
    cases code <;>
      simp_all [BasicTaskList.update, TextInputModal.update, TextInputModal.is_open,
        TextInputModal.close, apply_ite]

/-- C3 witness. -/
theorem C3_modal_open_consumes_only_enter_witness :
    (BasicTaskList.update ⟨0, popupOpenWith "x", false⟩ keyEnter ⟨[taskA]⟩ 0).handled = true ↔
      keyEnter.code = KeyCode.Enter :=
  C3_modal_open_consumes_only_enter ⟨0, popupOpenWith "x", false⟩ keyEnter ⟨[taskA]⟩ 0
    (by decide) (by decide)

/-- C4: `BasicTaskList::update` delegates to its modal first; whenever the
modal reports the key handled, `update` returns handled with only the
modal's own state changed — the task store is untouched, nothing is written,
the selection is untouched, and none of the list's key bindings run
(src lines 177-179). -/
theorem C4_delegation_short_circuit (comp : BasicTaskList) (key : KeyEvent)
    (db : Database) (now : Nat)
    (hpop : (comp.task_popup.update key).fst = true) :
    comp.update key db now =
      ⟨true, { comp with task_popup := (comp.task_popup.update key).snd }, db, []⟩ := by
  simp [BasicTaskList.update, hpop]

/-- C4 witness. -/
theorem C4_delegation_short_circuit_witness :
    BasicTaskList.update ⟨0, popupOpenWith "ab", false⟩ keyX ⟨[taskA]⟩ 0 =
      ⟨true, ⟨0, (TextInputModal.update (popupOpenWith "ab") keyX).snd, false⟩,
        ⟨[taskA]⟩, []⟩ :=
  C4_delegation_short_circuit ⟨0, popupOpenWith "ab", false⟩ keyX ⟨[taskA]⟩ 0 (by decide)

/-- C5: with the modal open on buffer `buf`, Enter (declined by the modal)
closes the modal, appends exactly one task `⟨buf, now⟩` to the store,
writes the store before returning, and reports handled; with the modal
closed, `c` with no modifiers opens the modal with an empty buffer, leaves
the store untouched, writes nothing, and reports handled. -/
theorem C5_create_flow (comp1 comp2 : BasicTaskList) (buf : String)
    (db1 db2 : Database) (now1 now2 : Nat) (mods1 : KeyModifiers)
    (h1 : comp1.task_popup.text = some buf)
    (h2 : comp2.task_popup.text = Option.none) :
    ((comp1.update ⟨KeyCode.Enter, mods1⟩ db1 now1).handled = true ∧
     (comp1.update ⟨KeyCode.Enter, mods1⟩ db1 now1).db.tasks =
       db1.tasks ++ [⟨buf, now1⟩] ∧
     (comp1.update ⟨KeyCode.Enter, mods1⟩ db1 now1).comp.task_popup.text = Option.none ∧
     (comp1.update ⟨KeyCode.Enter, mods1⟩ db1 now1).writes =
       [⟨db1.tasks ++ [⟨buf, now1⟩]⟩]) ∧
    ((comp2.update keyC db2 now2).handled = true ∧
     (comp2.update keyC db2 now2).comp.task_popup.text = some "" ∧
     (comp2.update keyC db2 now2).db = db2 ∧
     (comp2.update keyC db2 now2).writes = []) := by
  obtain ⟨idx1, ⟨pr1, txt1⟩, rev1⟩ := comp1
  obtain ⟨idx2, ⟨pr2, txt2⟩, rev2⟩ := comp2
  simp only at h1 h2
  subst h1
  subst h2
  simp [BasicTaskList.update, TextInputModal.update, TextInputModal.is_open,
    TextInputModal.close, TextInputModal.openModal, keyC, KeyModifiers.isEmpty,
    KeyModifiers.none, apply_ite]

/-- C5 witness. -/
theorem C5_create_flow_witness :
    ((BasicTaskList.update ⟨0, popupOpenWith "Buy milk", false⟩ keyEnter ⟨[]⟩ 7).handled =
       true ∧
     (BasicTaskList.update ⟨0, popupOpenWith "Buy milk", false⟩ keyEnter ⟨[]⟩ 7).db.tasks =
       (Database.mk []).tasks ++ [⟨"Buy milk", 7⟩] ∧
     (BasicTaskList.update ⟨0, popupOpenWith "Buy milk", false⟩ keyEnter
         ⟨[]⟩ 7).comp.task_popup.text = Option.none ∧
     (BasicTaskList.update ⟨0, popupOpenWith "Buy milk", false⟩ keyEnter ⟨[]⟩ 7).writes =
       [⟨(Database.mk []).tasks ++ [⟨"Buy milk", 7⟩]⟩]) ∧
    ((BasicTaskList.update (BasicTaskList.new false) keyC ⟨[taskA]⟩ 0).handled = true ∧
     (BasicTaskList.update (BasicTaskList.new false) keyC
         ⟨[taskA]⟩ 0).comp.task_popup.text = some "" ∧
     (BasicTaskList.update (BasicTaskList.new false) keyC ⟨[taskA]⟩ 0).db = ⟨[taskA]⟩ ∧
     (BasicTaskList.update (BasicTaskList.new false) keyC ⟨[taskA]⟩ 0).writes = []) :=
  C5_create_flow ⟨0, popupOpenWith "Buy milk", false⟩ (BasicTaskList.new false) "Buy milk"
    ⟨[]⟩ ⟨[taskA]⟩ 7 0 KeyModifiers.none (by decide) (by decide)

/-- C2 witness. -/
theorem C2_selection_clamp_amended_witness :
    (BasicTaskList.update ⟨0, popupClosed, false⟩ keyUp ⟨[taskA]⟩ 0).comp.index ≤
      (Database.mk [taskA]).tasks.length - 1 ∧
    (BasicTaskList.update ⟨0, popupClosed, false⟩ keyUp ⟨[taskA]⟩ 0).comp.renderSelected
      ⟨[]⟩ = Option.none :=
  C2_selection_clamp_amended ⟨0, popupClosed, false⟩ keyUp ⟨[taskA]⟩ 0 (by decide) (by decide)

/-- C6 counterexample: with the store empty and the modal closed, Down is
reported handled but increments the selection from 0 to 1 — there is no
ceiling of `len - 1` (which would keep the index at 0): the comparison
`index != len - 1` underflows on the empty list. -/
theorem C6_counterexample :
    (BasicTaskList.update ⟨0, popupClosed, false⟩ keyDown ⟨[]⟩ 0).handled = true ∧
    (BasicTaskList.update ⟨0, popupClosed, false⟩ keyDown ⟨[]⟩ 0).comp.index = 1 ∧
    ¬((BasicTaskList.update ⟨0, popupClosed, false⟩ keyDown ⟨[]⟩ 0).comp.index ≤
        (Database.mk []).tasks.length - 1) := by
  decide

/-- C6 (amended): with the modal closed and a non-empty store (index in
range), Up decrements the selection with a floor of 0 and is handled, Down
increments it with a ceiling of `len - 1` and is handled, and every key
other than `c`, `d`, Up and Down is unhandled and falls through; on an
empty store Down is still handled but increments the index without a
ceiling. -/
theorem C6_navigation_amended (comp : BasicTaskList) (key : KeyEvent)
    (mods : KeyModifiers) (db : Database) (now : Nat)
    (hclosed : comp.task_popup.is_open = false)
    (hne : db.tasks.length ≠ 0)
    (hidx : comp.index < db.tasks.length)
    (hkey : key.code ≠ KeyCode.Char 'c' ∧ key.code ≠ KeyCode.Char 'd' ∧
      key.code ≠ KeyCode.Up ∧ key.code ≠ KeyCode.Down) :
    ((comp.update ⟨KeyCode.Up, mods⟩ db now).handled = true ∧
     (comp.update ⟨KeyCode.Up, mods⟩ db now).comp.index = comp.index - 1) ∧
    ((comp.update ⟨KeyCode.Down, mods⟩ db now).handled = true ∧
     (comp.update ⟨KeyCode.Down, mods⟩ db now).comp.index =
       min (comp.index + 1) (db.tasks.length - 1)) ∧
    (comp.update key db now).handled = false := by
  obtain ⟨idx, ⟨pr, txt⟩, rev⟩ := comp
  obtain ⟨code, kmods⟩ := key
  cases txt with
  | some buf => simp [TextInputModal.is_open] at hclosed
  | none =>
    simp only at hidx hkey
    have hsub : usizeSubOne db.tasks.length = db.tasks.length - 1 := by
      unfold usizeSubOne
      rw [if_neg hne]
    refine ⟨⟨?_, ?_⟩, ⟨?_, ?_⟩, ?_⟩
    · simp [BasicTaskList.update, TextInputModal.update, TextInputModal.is_open, hne]
    · simp [BasicTaskList.update, TextInputModal.update, TextInputModal.is_open, hne]
      split_ifs <;> omega
    · simp [BasicTaskList.update, TextInputModal.update, TextInputModal.is_open, hne]
    · simp [BasicTaskList.update, TextInputModal.update, TextInputModal.is_open, hne, hsub]
      split_ifs <;> omega
    · obtain ⟨hkc, hkd, hku, hkdown⟩ := hkey
      cases code <;>
        simp_all [BasicTaskList.update, TextInputModal.update, TextInputModal.is_open, hne]

/-- C6 witness. -/
theorem C6_navigation_amended_witness :
    ((BasicTaskList.update ⟨1, popupClosed, false⟩ keyUp ⟨[taskA, taskB, taskC]⟩ 0).handled =
       true ∧
     (BasicTaskList.update ⟨1, popupClosed, false⟩ keyUp
         ⟨[taskA, taskB, taskC]⟩ 0).comp.index = 1 - 1) ∧
    ((BasicTaskList.update ⟨1, popupClosed, false⟩ keyDown
         ⟨[taskA, taskB, taskC]⟩ 0).handled = true ∧
     (BasicTaskList.update ⟨1, popupClosed, false⟩ keyDown
         ⟨[taskA, taskB, taskC]⟩ 0).comp.index =
       min (1 + 1) ((Database.mk [taskA, taskB, taskC]).tasks.length - 1)) ∧
    (BasicTaskList.update ⟨1, popupClosed, false⟩ keyX ⟨[taskA, taskB, taskC]⟩ 0).handled =
      false :=
  C6_navigation_amended ⟨1, popupClosed, false⟩ keyX KeyModifiers.none
    ⟨[taskA, taskB, taskC]⟩ 0 (by decide) (by decide) (by decide)
    ⟨by decide, by decide, by decide, by decide⟩

/-- C7: the claim says `update` never panics from unsigned-integer
underflow. Evaluation at the failing input (empty store, modal closed,
Down): the code compares `self.index` against `task_indices.len() - 1`
with `len = 0`; the subtraction underflows — it wraps to `2^64 - 1` in the
release profile (so the comparison succeeds and the index increments past
the empty list), and panics under the debug profile's overflow check. -/
theorem C7_down_underflow_on_empty :
    usizeSubOne (Database.mk []).tasks.length = 2 ^ 64 - 1 ∧
    (0 : Nat) ≠ usizeSubOne (Database.mk []).tasks.length ∧
    (BasicTaskList.update ⟨0, popupClosed, false⟩ keyDown ⟨[]⟩ 0).comp.index = 0 + 1 := by
  decide

/-- C8: after the component tree reports a key unhandled, `run_loop`
terminates exactly on key code `q`, Escape, or `c` with the CONTROL
modifier; `s` hits its no-op placeholder arm and the loop keeps running,
as it does for every other unhandled key; and when the tree reports the
key handled no fallback binding is applied (src lines 52-64). -/
theorem C8_fallback_bindings (key : KeyEvent) (handled : Bool) :
    (run_loop_step key handled = LoopAction.exitLoop ↔
      handled = false ∧
        (key.code = KeyCode.Char 'q' ∨ key.code = KeyCode.Esc ∨
          (key.code = KeyCode.Char 'c' ∧ key.modifiers.control = true))) ∧
    run_loop_step ⟨KeyCode.Char 's', KeyModifiers.none⟩ false = LoopAction.keepRunning ∧
    run_loop_step key true = LoopAction.keepRunning := by
  obtain ⟨code, kmods⟩ := key
  refine ⟨?_, by decide, by simp [run_loop_step]⟩
  cases handled <;>
    simp only [run_loop_step, run_loop_fallback] <;>
    split_ifs <;>
    simp_all
  tauto

/-- C8 witness. -/
theorem C8_fallback_bindings_witness :
    (run_loop_step keyQ false = LoopAction.exitLoop ↔
      false = false ∧
        (keyQ.code = KeyCode.Char 'q' ∨ keyQ.code = KeyCode.Esc ∨
          (keyQ.code = KeyCode.Char 'c' ∧ keyQ.modifiers.control = true))) ∧
    run_loop_step ⟨KeyCode.Char 's', KeyModifiers.none⟩ false = LoopAction.keepRunning ∧
    run_loop_step keyQ true = LoopAction.keepRunning :=
  C8_fallback_bindings keyQ false

/-- C9: `AppState::create` on an absent file writes a fresh empty store to
that path and returns it successfully (and the startup scenario renders an
empty list with no highlighted row); on an unparseable file it returns an
error, in which case `main` prints a message and returns without entering
the interface. -/
theorem C9_startup_create_or_fail :
    (AppState.create Option.none = Except.ok (⟨[]⟩, FileContent.valid []) ∧
     main_enters_interface Option.none = true ∧
     BasicTaskList.renderSelected (BasicTaskList.new false) ⟨[]⟩ = Option.none) ∧
    (AppState.create (some FileContent.corrupt) = Except.error () ∧
     main_enters_interface (some FileContent.corrupt) = false) :=
  ⟨⟨rfl, rfl, rfl⟩, rfl, rfl⟩

/-- Membership in an `insertByTime` result. -/
theorem mem_insertByTime {t b : Task} {l : List Task} :
    b ∈ insertByTime t l ↔ b = t ∨ b ∈ l := by
  induction l with
  | nil => simp [insertByTime]
  | cons u us ih =>
    by_cases h : u.time_created < t.time_created <;>
      simp [insertByTime, h, ih]
    tauto

/-- `insertByTime` preserves sortedness by creation time. -/
theorem sorted_insertByTime {t : Task} {l : List Task}
    (h : l.Sorted fun a b => a.time_created ≤ b.time_created) :
    (insertByTime t l).Sorted fun a b => a.time_created ≤ b.time_created := by
  induction l with
  | nil => simp [insertByTime]
  | cons u us ih =>
    rw [List.sorted_cons] at h
    by_cases hc : u.time_created < t.time_created
    · simp only [insertByTime, if_pos hc]
      rw [List.sorted_cons]
      refine ⟨fun b hb => ?_, ih h.2⟩
      rcases mem_insertByTime.mp hb with hbt | hbu
      · subst hbt
        omega
      · exact h.1 b hbu
    · simp only [insertByTime, if_neg hc]
      rw [List.sorted_cons]
      refine ⟨fun b hb => ?_, by rw [List.sorted_cons]; exact h⟩
      rcases List.mem_cons.mp hb with hbu | hbus
      · subst hbu
        omega
      · have := h.1 b hbus
        omega

/-- `sortByTime` sorts ascending by creation time. -/
theorem sorted_sortByTime (l : List Task) :
    (sortByTime l).Sorted fun a b => a.time_created ≤ b.time_created := by
  induction l with
  | nil => simp [sortByTime]
  | cons t ts ih => exact sorted_insertByTime ih

/-- Inserting `t` puts it in front of the other elements carrying `t`'s
timestamp (stability at the inserted element's key). -/
theorem filter_insertByTime_eq (t : Task) (l : List Task) :
    (insertByTime t l).filter (fun u => u.time_created == t.time_created) =
      t :: l.filter (fun u => u.time_created == t.time_created) := by
  induction l with
  | nil => simp [insertByTime]
  | cons u us ih =>
    by_cases h : u.time_created < t.time_created
    · have hne : (u.time_created == t.time_created) = false := by
        simp only [beq_eq_false_iff_ne, ne_eq]
        omega
      simp [insertByTime, h, List.filter_cons, hne, ih]
    · simp [insertByTime, h, List.filter_cons]

/-- Inserting `t` does not disturb the elements carrying any other
timestamp. -/
theorem filter_insertByTime_ne (t : Task) (l : List Task) (k : Nat)
    (hk : t.time_created ≠ k) :
    (insertByTime t l).filter (fun u => u.time_created == k) =
      l.filter (fun u => u.time_created == k) := by
  have hne : (t.time_created == k) = false := by
    simp only [beq_eq_false_iff_ne, ne_eq]
    exact hk
  induction l with
  | nil => simp [insertByTime, hne]
  | cons u us ih =>
    by_cases h : u.time_created < t.time_created <;>
      simp [insertByTime, h, List.filter_cons, ih, hne]

/-- Stability of the embedded sort: for every timestamp, the tasks carrying
it appear in the sorted list in their original (insertion) order. -/
theorem filter_sortByTime (l : List Task) (k : Nat) :
    (sortByTime l).filter (fun u => u.time_created == k) =
      l.filter (fun u => u.time_created == k) := by
  induction l with
  | nil => rfl
  | cons t ts ih =>
    by_cases h : t.time_created = k
    · subst h
      simp only [sortByTime]
      rw [filter_insertByTime_eq, ih, List.filter_cons]
      simp
    · simp only [sortByTime]
      rw [filter_insertByTime_ne _ _ _ h, ih, List.filter_cons]
      simp [h]

/-- C10: the reversed view variant displays exactly the reverse of the
ascending-by-`time_created` view; the ascending view is sorted by
`time_created`, and tasks with equal `time_created` appear in their node
(insertion) order — the embedded sort is stable, as Rust's `sort_by`
guarantees. -/
theorem C10_reverse_of_ascending_and_stable (idx1 idx2 : Nat)
    (p1 p2 : TextInputModal) (tasks : List Task) (k : Nat) :
    BasicTaskList.renderOrder ⟨idx1, p1, true⟩ ⟨tasks⟩ =
      (BasicTaskList.renderOrder ⟨idx2, p2, false⟩ ⟨tasks⟩).reverse ∧
    (BasicTaskList.renderOrder ⟨idx2, p2, false⟩ ⟨tasks⟩).Sorted
      (fun a b => a.time_created ≤ b.time_created) ∧
    (BasicTaskList.renderOrder ⟨idx2, p2, false⟩ ⟨tasks⟩).filter
        (fun t => t.time_created == k) =
      tasks.filter (fun t => t.time_created == k) := by
  refine ⟨?_, ?_, ?_⟩
  · simp [BasicTaskList.renderOrder]
  · simpa [BasicTaskList.renderOrder] using sorted_sortByTime tasks
  · simpa [BasicTaskList.renderOrder] using filter_sortByTime tasks k

end Td
